import Mathlib

/-!
Verification of the static-file collection engine
(`staticfiles/management/commands/collectstatic.py`).

The embedding models the `Command` class of the source file:

* the destination storage is a snapshot `DestState` (an association list
  from destination path to an `Entry` carrying the modification time and
  whether the entry is a symbolic link), together with a capability record
  `DestCaps` saying whether the storage supports `modified_time` and
  `path()` (the latter is the storage-locality probe done in `__init__`);
* each discovered file (the `(source, prefix, storage)` triples yielded by
  the finders) is a `SourceFile` carrying its relative name, its prefix,
  the source storage's reported modification time (`none` when
  `modified_time` raises) and whether the source storage supports `path()`;
* `file_has_changed`, `file_status`, `copy_file` and the main loop of
  `handle_noargs` (`processFiles` / `runEngine`) are translated line by
  line; exceptions escaping a call are modelled with an `Option Err`
  component, and mutations performed before an exception is raised are
  kept in the returned state.
-/

/-- Errors that can escape the engine: `notSupported` models Python's
`NotImplementedError` raised by a storage lacking a capability, the other
three model the `CommandError`s raised in `handle_noargs`. -/
inductive Err where
  | notSupported
  | unsupportedPlatform
  | unsupportedDestination
  | userCancelled
deriving DecidableEq, Repr

/-- A destination entry: its modification time and whether the filesystem
entry is a symbolic link (`os.path.islink`). -/
structure Entry where
  mtime : Nat
  isLink : Bool
deriving DecidableEq, Repr

/-- Snapshot of the destination storage: association list from destination
path to entry. -/
abbrev DestState := List (String × Entry)

/-- `destination_storage` lookup (used for `exists`, `modified_time` and
`os.path.islink`). -/
def lookupEntry : DestState → String → Option Entry
  | [], _ => none
  | (k, e) :: rest, nm => if k = nm then some e else lookupEntry rest nm

/-- `destination_storage.delete(name)`: removes the entry, a no-op when the
entry is absent. -/
def eraseEntry : DestState → String → DestState
  | [], _ => []
  | (k, e) :: rest, nm =>
      if k = nm then eraseEntry rest nm else (k, e) :: eraseEntry rest nm

/-- Creating a destination entry (`shutil.copy2`, `os.symlink` or
`destination_storage.save`). -/
def writeEntry (d : DestState) (nm : String) (e : Entry) : DestState :=
  (nm, e) :: eraseEntry d nm

/-- `destination_storage.exists(name)`. -/
def destExists (d : DestState) (nm : String) : Bool :=
  (lookupEntry d nm).isSome

/-- `os.path.islink(path)` on the destination entry. -/
def destIsLink (d : DestState) (nm : String) : Bool :=
  match lookupEntry d nm with
  | some e => e.isLink
  | none => false

/-- Capabilities of the destination storage backend: whether
`modified_time` is supported and whether `path()` is supported. -/
structure DestCaps where
  hasMtime : Bool
  hasPath : Bool
deriving DecidableEq, Repr

/-- `Command.__init__`: `try: destination_storage.path('') except
NotImplementedError: destination_local = False else: destination_local =
True`. -/
def destinationLocal (caps : DestCaps) : Bool :=
  caps.hasPath

/-- One discovered file, i.e. one `(source, prefix, storage)` triple
yielded by a finder, together with the two facts the engine queries from
its source storage: `mtime` is `source_storage.modified_time(source)`
(`none` when the call raises `OSError`/`NotImplementedError`/
`AttributeError`) and `hasPath` says whether `source_storage.path(source)`
succeeds. -/
structure SourceFile where
  name : String
  pfx : String
  mtime : Option Nat
  hasPath : Bool
deriving DecidableEq, Repr

/-- `copy_file` lines 112-115: `destination = '/'.join([prefix, source])
if prefix else source` (an empty prefix is falsy in Python). -/
def destPath (src : SourceFile) : String :=
  if src.pfx = "" then src.name else src.pfx ++ "/" ++ src.name

/-- `file_has_changed` lines 196-199: the source timestamp, with raising
`modified_time` replaced by `0`. -/
def sourceTs (src : SourceFile) : Nat :=
  match src.mtime with
  | none => 0
  | some t => t

/-- `destination_storage.modified_time(destination)`: `none` models the
call raising (`NotImplementedError` when the backend lacks the capability,
`OSError` when the entry cannot be stat-ed). -/
def destModifiedTime (caps : DestCaps) (d : DestState) (nm : String) : Option Nat :=
  if caps.hasMtime then (lookupEntry d nm).map Entry.mtime else none

/-- `Command.file_has_changed` (lines 195-207): on a destination-side
failure return `True` ("assume True"), otherwise
`source_last_modified > destination_last_modified`. -/
def file_has_changed (caps : DestCaps) (d : DestState) (src : SourceFile)
    (destination : String) : Bool :=
  match destModifiedTime caps d destination with
  | none => true
  | some t => decide (t < sourceTs src)

/-- `STATUS_COPY` / `STATUS_SKIP`. -/
inductive Status where
  | copy
  | skip
deriving DecidableEq, Repr

/-- `REASON_ALREADY_COPIED` / `REASON_ALREADY_LINKED` /
`REASON_NOT_MODIFIED`. -/
inductive Reason where
  | alreadyCopied
  | alreadyLinked
  | notModified
deriving DecidableEq, Repr

/-- The engine's mutable state: the destination storage snapshot plus the
three per-run sets `copied_files`, `symlinked_files`, `unmodified_files`
(sets modelled as duplicate-free-by-insertion lists). -/
structure EngineState where
  dest : DestState
  copied : List String
  symlinked : List String
  unmodified : List String
deriving DecidableEq, Repr

/-- `set.add`: insert a path into a run-state set. -/
def insertPath (l : List String) (s : String) : List String :=
  if s ∈ l then l else s :: l

/-- `Command.file_status` (lines 178-193), translated branch by branch.
Note that the `os.path.islink(self.destination_storage.path(destination))`
call raises `NotImplementedError` when the destination storage has no
local-path capability; this is modelled by the `Except.error` branch. -/
def file_status (caps : DestCaps) (symlinkMode : Bool) (st : EngineState)
    (src : SourceFile) (destination : String) :
    Except Err (Status × Option Reason) :=
  if destination ∈ st.copied then
    Except.ok (Status.skip, some Reason.alreadyCopied)
  else if destination ∈ st.symlinked then
    Except.ok (Status.skip, some Reason.alreadyLinked)
  else if destExists st.dest destination then
    if file_has_changed caps st.dest src destination then
      if destinationLocal caps then
        if !symlinkMode && !destIsLink st.dest destination then
          Except.ok (Status.skip, some Reason.notModified)
        else
          Except.ok (Status.copy, none)
      else
        Except.error Err.notSupported
    else
      Except.ok (Status.copy, none)
  else
    Except.ok (Status.copy, none)

/-- Per-run options of one `copy_file` call: the destination capabilities,
`options['link']`, `options['dry_run']` and the wall-clock instant the
destination backend would stamp on `save` (only used for the non-local
copy branch). -/
structure Ctx where
  caps : DestCaps
  symlinkMode : Bool
  dryRun : Bool
  now : Nat
deriving DecidableEq, Repr

/-- `Command.copy_file` (lines 106-176). Returns the state after the call
(including mutations performed before an escaping exception), the escaped
exception if any, and the Python return value. The first step models line
111, `source_path = source_storage.path(source)`, which raises when the
source storage has no local-path capability; it happens before everything
else, in particular before the mode branch and the dry-run branch. -/
def copy_file (ctx : Ctx) (st : EngineState) (src : SourceFile) :
    EngineState × Option Err × Bool :=
  if src.hasPath then
    let destination := destPath src
    match file_status ctx.caps ctx.symlinkMode st src destination with
    | Except.error e => (st, some e, false)
    | Except.ok (Status.skip, detail) =>
        if detail = some Reason.notModified then
          ({ st with unmodified := insertPath st.unmodified destination },
            none, false)
        else
          (st, none, false)
    | Except.ok (Status.copy, _) =>
        let st1 :=
          if ctx.dryRun then st
          else { st with dest := eraseEntry st.dest destination }
        if ctx.symlinkMode then
          if destinationLocal ctx.caps then
            let st2 :=
              if ctx.dryRun then st1
              else { st1 with
                dest := writeEntry st1.dest destination ⟨sourceTs src, true⟩ }
            ({ st2 with symlinked := insertPath st2.symlinked destination },
              none, true)
          else
            (st1, some Err.notSupported, false)
        else
          let st2 :=
            if ctx.dryRun then st1
            else if destinationLocal ctx.caps then
              { st1 with
                dest := writeEntry st1.dest destination ⟨sourceTs src, false⟩ }
            else
              { st1 with
                dest := writeEntry st1.dest destination ⟨ctx.now, false⟩ }
          ({ st2 with copied := insertPath st2.copied destination },
            none, true)
  else
    (st, some Err.notSupported, false)

/-- The finder loop of `handle_noargs` (lines 92-94): process the
discovered files in finder-priority order, stopping at the first escaping
exception (any unexpected storage error aborts the run). -/
def processFiles (ctx : Ctx) : EngineState → List SourceFile →
    EngineState × Option Err
  | st, [] => (st, none)
  | st, f :: fs =>
      let r := copy_file ctx st f
      match r.2.1 with
      | some e => (r.1, some e)
      | none => processFiles ctx r.1 fs

/-- The invocation options of `handle_noargs`: `options['link']`,
`options['dry_run']`, `options['interactive']` and the operator's answer
to the confirmation prompt. -/
structure Opts where
  link : Bool
  dry_run : Bool
  interactive : Bool
  confirm : String
deriving DecidableEq, Repr

/-- The engine state at the start of a run: the pre-existing destination
snapshot and the three empty sets created in `handle_noargs` lines 66-68. -/
def initState (dest0 : DestState) : EngineState :=
  ⟨dest0, [], [], []⟩

/-- The outcome of one run: the final engine state (destination snapshot
plus run sets) and the escaping error, if any. -/
structure RunResult where
  state : EngineState
  err : Option Err
deriving DecidableEq, Repr

/-- `Command.handle_noargs` (lines 60-104): the symlink platform and
locality guards, the interactive confirmation, then the finder loop. -/
def runEngine (caps : DestCaps) (win32 : Bool) (now : Nat) (opts : Opts)
    (files : List SourceFile) (dest0 : DestState) : RunResult :=
  if opts.link = true ∧ win32 = true then
    ⟨initState dest0, some Err.unsupportedPlatform⟩
  else if opts.link = true ∧ destinationLocal caps = false then
    ⟨initState dest0, some Err.unsupportedDestination⟩
  else if opts.interactive = true ∧ ¬ opts.confirm = "yes" then
    ⟨initState dest0, some Err.userCancelled⟩
  else
    let r := processFiles ⟨caps, opts.link, opts.dry_run, now⟩
      (initState dest0) files
    ⟨r.1, r.2⟩

/-- `actual_count = len(copied_files) + len(symlinked_files)` (line 96). -/
def actualCount (st : EngineState) : Nat :=
  st.copied.length + st.symlinked.length

/-- `unmodified_count = len(unmodified_files)` (line 97). -/
def unmodifiedCount (st : EngineState) : Nat :=
  st.unmodified.length

/-- Decidable equality for `Except` results, so that concrete runs of
`file_status` can be checked by `decide`. -/
instance {α β : Type} [DecidableEq α] [DecidableEq β] :
    DecidableEq (Except α β) := fun a b =>
  match a, b with
  | Except.error x, Except.error y =>
      if h : x = y then isTrue (by rw [h]) else isFalse (by simp [h])
  | Except.ok x, Except.ok y =>
      if h : x = y then isTrue (by rw [h]) else isFalse (by simp [h])
  | Except.error _, Except.ok _ => isFalse (by simp)
  | Except.ok _, Except.error _ => isFalse (by simp)

/-! ### Concrete scenarios used by the claim theorems -/

/-- Destination path used in the C1 scenario. -/
def nmApp : String := "app.css"

/-- C1 scenario: fully capable local destination. -/
def c1caps : DestCaps := ⟨true, true⟩

/-- C1 scenario: the destination already holds `app.css` with timestamp 5. -/
def c1dest : DestState := [(nmApp, ⟨5, false⟩)]

/-- C1 scenario: source with timestamp equal to the destination's. -/
def c1srcEq : SourceFile := ⟨nmApp, "", some 5, true⟩

/-- C1 scenario: source one unit newer than the destination. -/
def c1srcNewer : SourceFile := ⟨nmApp, "", some 6, true⟩

/-- C1 scenario: run state at the start of a run. -/
def c1st : EngineState := initState c1dest

/-- C1: the change-detection policy itself does report changed iff the
source timestamp is strictly greater (first and third conjuncts), but the
engine's behaviour is inverted: with equal timestamps `file_status`
resolves to copy (the file is overwritten, not skipped), and with a
strictly newer source it resolves to skip with reason NotModified (the
file is skipped, not overwritten), because the skip branch of
`file_status` fires when `file_has_changed` returns `True`. -/
theorem c1_staleness_behaviour_inverted :
    file_has_changed c1caps c1dest c1srcEq nmApp = false ∧
    file_status c1caps false c1st c1srcEq nmApp =
      Except.ok (Status.copy, none) ∧
    file_has_changed c1caps c1dest c1srcNewer nmApp = true ∧
    file_status c1caps false c1st c1srcNewer nmApp =
      Except.ok (Status.skip, some Reason.notModified) := by
  decide

/-- Destination path used in the C2 scenario. -/
def nmLogo : String := "logo.png"

/-- C2 scenario: destination storage with a local path but no
`modified_time` support. -/
def c2caps : DestCaps := ⟨false, true⟩

/-- C2 scenario: the destination already holds `logo.png`. -/
def c2dest : DestState := [(nmLogo, ⟨3, false⟩)]

/-- C2 scenario: a source file for the same path. -/
def c2src : SourceFile := ⟨nmLogo, "", some 3, true⟩

/-- C2: when the destination's `modified_time` is unavailable the policy
does report "changed" (first conjunct), but the engine then skips the file
with reason NotModified instead of overwriting it: the unavailable
destination timestamp causes exactly the silent skip the claim rules
out. -/
theorem c2_unavailable_dest_mtime_causes_skip :
    file_has_changed c2caps c2dest c2src nmLogo = true ∧
    file_status c2caps false (initState c2dest) c2src nmLogo =
      Except.ok (Status.skip, some Reason.notModified) := by
  decide

/-- C3 scenario: a single discovered file with timestamp 5. -/
def c3files : List SourceFile := [⟨"a.txt", "", some 5, true⟩]

/-- C3 scenario: Copy mode, no dry-run, non-interactive. -/
def c3opts : Opts := ⟨false, false, false, ""⟩

/-- C3 scenario: the first run, over an empty destination. -/
def c3run1 : RunResult := runEngine ⟨true, true⟩ false 100 c3opts c3files []

/-- C3 scenario: the second run, over the destination the first run
produced (no source changes in between). -/
def c3run2 : RunResult :=
  runEngine ⟨true, true⟩ false 200 c3opts c3files c3run1.state.dest

/-- C3: the engine is not idempotent. The first run copies the file
(local copy preserves the source timestamp), so on the second run the
timestamps are equal, `file_has_changed` returns `False`, the skip branch
is not taken, and the file is copied again: the second run ends with
`copiedCount = 1` (= total) and `unmodifiedCount = 0`, not the claimed
`copiedCount = 0` and `unmodifiedCount = total`. -/
theorem c3_second_run_recopies_everything :
    c3run1.err = none ∧ c3run1.state.copied.length = 1 ∧
    c3run2.err = none ∧
    c3run2.state.copied.length = 1 ∧
    c3run2.state.unmodified.length = 0 := by
  decide

/-- C4/C6-style scenario: two finders both yield `x.js`; the destination
already holds it with timestamp 5; the first finder's copy is newer (7),
the second finder's copy is older (4). -/
def c4files : List SourceFile :=
  [⟨"x.js", "", some 7, true⟩, ⟨"x.js", "", some 4, true⟩]

/-- C4 scenario: initial destination. -/
def c4dest : DestState := [("x.js", ⟨5, false⟩)]

/-- C4 scenario: the full run. -/
def c4run : RunResult :=
  runEngine ⟨true, true⟩ false 50 ⟨false, false, false, ""⟩ c4files c4dest

/-- C4 counterexample: after the run, `x.js` is in `unmodified` (the first
finder's file was skipped with reason NotModified) and simultaneously in
`copied` (the second finder's file was then copied), so a path in the
unmodified set is concurrently in the copied set within one run. -/
theorem c4_unmodified_and_copied_overlap :
    c4run.err = none ∧
    ("x.js" ∈ c4run.state.unmodified ∧ "x.js" ∈ c4run.state.copied) := by
  decide

/-- Destination path used in the C5 scenario. -/
def nmStyle : String := "style.css"

/-- C5 scenario: fully capable local destination. -/
def c5caps : DestCaps := ⟨true, true⟩

/-- C5 scenario: the existing destination entry is a symbolic link. -/
def c5destLink : DestState := [(nmStyle, ⟨4, true⟩)]

/-- C5 scenario: the existing destination entry is a regular file. -/
def c5destFile : DestState := [(nmStyle, ⟨4, false⟩)]

/-- C5 scenario: a source file detected as changed (timestamp 9 > 4). -/
def c5src : SourceFile := ⟨nmStyle, "", some 9, true⟩

/-- C5: two of the three claimed bypass conditions hold — an existing
destination entry that is a symlink bypasses the skip (first conjunct,
covering the Symlink-then-Copy mode switch), and Symlink mode bypasses the
skip (second conjunct) — but the third is inverted: a file detected as
changed (third conjunct) does not bypass the skip branch; it is exactly
the case in which `file_status` skips the file as NotModified (fourth
conjunct). -/
theorem c5_changed_file_does_not_bypass_skip :
    file_status c5caps false (initState c5destLink) c5src nmStyle =
      Except.ok (Status.copy, none) ∧
    file_status c5caps true (initState c5destFile) c5src nmStyle =
      Except.ok (Status.copy, none) ∧
    file_has_changed c5caps c5destFile c5src nmStyle = true ∧
    file_status c5caps false (initState c5destFile) c5src nmStyle =
      Except.ok (Status.skip, some Reason.notModified) := by
  decide

/-- C6 scenario: two finders both yield `f.txt` (first finder's copy has
timestamp 7, second finder's has 4); the destination already holds it
with timestamp 5. -/
def c6files : List SourceFile :=
  [⟨"f.txt", "", some 7, true⟩, ⟨"f.txt", "", some 4, true⟩]

/-- C6 scenario: initial destination. -/
def c6dest : DestState := [("f.txt", ⟨5, false⟩)]

/-- C6 scenario: the run over both finders' files. -/
def c6run : RunResult :=
  runEngine ⟨true, true⟩ false 60 ⟨false, false, false, ""⟩ c6files c6dest

/-- C6 scenario: the run over the first finder's file only. -/
def c6run1 : RunResult :=
  runEngine ⟨true, true⟩ false 60 ⟨false, false, false, ""⟩
    [⟨"f.txt", "", some 7, true⟩] c6dest

/-- C6 counterexample: the earlier finder's file is not written (after
processing it, `copied` is empty and the path sits in `unmodified`), and
the later finder's file is then written — it is not skipped with reason
AlreadyCopied, and it mutates the destination path (the entry's timestamp
becomes the later source's timestamp 4). -/
theorem c6_later_finder_can_write :
    c6run1.err = none ∧ c6run1.state.copied = [] ∧
    c6run1.state.unmodified = ["f.txt"] ∧
    c6run.err = none ∧ c6run.state.copied = ["f.txt"] ∧
    c6run.state.dest = [("f.txt", ⟨4, false⟩)] := by
  decide

/-- Destination path used in the C8 scenario. -/
def nmMain : String := "m.css"

/-- C8 scenario: non-local destination storage (its `path()` raises
`NotImplementedError`) that does support `modified_time`. -/
def c8caps : DestCaps := ⟨true, false⟩

/-- C8 scenario: the destination already holds `m.css` with timestamp 2. -/
def c8dest : DestState := [(nmMain, ⟨2, false⟩)]

/-- C8 scenario: one discovered file, newer than the destination copy. -/
def c8files : List SourceFile := [⟨nmMain, "", some 9, true⟩]

/-- C8: on a non-local destination, `file_status` still calls
`destination_storage.path(destination)` for its `os.path.islink` check
without consulting the locality flag computed at startup, so the
`NotSupported` failure of `path()` escapes in the middle of the run: the
whole run aborts with `notSupported`, contradicting the claim that
`path()` unavailability is never surfaced after startup. -/
theorem c8_path_failure_escapes_mid_run :
    (runEngine c8caps false 10 ⟨false, false, false, ""⟩ c8files c8dest).err =
      some Err.notSupported := by
  decide

/-! ### Association-list and insertion lemmas -/

/-- Erasing one key leaves lookups at other keys unchanged. -/
theorem lookupEntry_eraseEntry (l : DestState) (k k2 : String) (h : k2 ≠ k) :
    lookupEntry (eraseEntry l k) k2 = lookupEntry l k2 := by
  induction l with
  | nil => rfl
  | cons p rest ih =>
    obtain ⟨a, e⟩ := p
    by_cases ha : a = k
    · subst ha
      have ha2 : ¬ a = k2 := fun h2 => h h2.symm
      simp [eraseEntry, lookupEntry, ih, ha2]
    · by_cases hb : a = k2
      · subst hb
        simp [eraseEntry, lookupEntry, ha]
      · simp [eraseEntry, lookupEntry, ha, hb, ih]

/-- Writing one key leaves lookups at other keys unchanged. -/
theorem lookupEntry_writeEntry_ne (l : DestState) (k k2 : String) (e : Entry)
    (h : k2 ≠ k) :
    lookupEntry (writeEntry l k e) k2 = lookupEntry l k2 := by
  have hk : ¬ k = k2 := fun h2 => h h2.symm
  simp only [writeEntry, lookupEntry, if_neg hk]
  exact lookupEntry_eraseEntry l k k2 h

/-- The delete-then-create sequence of `copy_file` leaves lookups at every
other key unchanged. -/
theorem lookupEntry_overwrite_ne (l : DestState) (k k2 : String) (e : Entry)
    (h : k2 ≠ k) :
    lookupEntry (writeEntry (eraseEntry l k) k e) k2 = lookupEntry l k2 := by
  rw [lookupEntry_writeEntry_ne _ _ _ _ h, lookupEntry_eraseEntry _ _ _ h]

/-- Membership in an inserted run-state set. -/
theorem mem_insertPath {l : List String} {s x : String} :
    x ∈ insertPath l s ↔ x = s ∨ x ∈ l := by
  unfold insertPath
  split
  · case isTrue h =>
      constructor
      · exact Or.inr
      · rintro (rfl | hx)
        · exact h
        · exact hx
  · case isFalse h => exact List.mem_cons

/-- An inserted path is a member of the resulting set. -/
theorem self_mem_insertPath (l : List String) (s : String) :
    s ∈ insertPath l s :=
  mem_insertPath.mpr (Or.inl rfl)

/-- Old members survive insertion. -/
theorem mem_insertPath_of_mem {l : List String} {s x : String} (h : x ∈ l) :
    x ∈ insertPath l s :=
  mem_insertPath.mpr (Or.inr h)

/-! ### Facts about `file_status` -/

/-- A skip with reason NotModified is only produced for a destination path
that is in neither the copied nor the symlinked set at that moment (the two
earlier branches of `file_status` would otherwise have fired). -/
theorem file_status_notModified_not_claimed (caps : DestCaps) (sm : Bool)
    (st : EngineState) (src : SourceFile) (d : String)
    (h : file_status caps sm st src d =
      Except.ok (Status.skip, some Reason.notModified)) :
    d ∉ st.copied ∧ d ∉ st.symlinked := by
  by_cases h1 : d ∈ st.copied
  · rw [file_status, if_pos h1] at h
    simp at h
  · by_cases h2 : d ∈ st.symlinked
    · rw [file_status, if_neg h1, if_pos h2] at h
      simp at h
    · exact ⟨h1, h2⟩

/-- A copy status is only produced for a destination path that is in
neither the copied nor the symlinked set. -/
theorem file_status_copy_not_claimed (caps : DestCaps) (sm : Bool)
    (st : EngineState) (src : SourceFile) (d : String)
    (detail : Option Reason)
    (h : file_status caps sm st src d = Except.ok (Status.copy, detail)) :
    d ∉ st.copied ∧ d ∉ st.symlinked := by
  by_cases h1 : d ∈ st.copied
  · rw [file_status, if_pos h1] at h
    simp at h
  · by_cases h2 : d ∈ st.symlinked
    · rw [file_status, if_neg h1, if_pos h2] at h
      simp at h
    · exact ⟨h1, h2⟩

/-- `file_status` only inspects the copied set, the symlinked set and the
destination entry at the queried path. -/
theorem file_status_congr (caps : DestCaps) (sm : Bool)
    (st1 st2 : EngineState) (src : SourceFile) (d : String)
    (hc : st1.copied = st2.copied) (hs : st1.symlinked = st2.symlinked)
    (hl : lookupEntry st1.dest d = lookupEntry st2.dest d) :
    file_status caps sm st1 src d = file_status caps sm st2 src d := by
  unfold file_status file_has_changed destModifiedTime destExists destIsLink
  rw [hc, hs, hl]

/-! ### The copied/symlinked disjointness invariant -/

/-- The invariant of one engine state: a destination path sits in at most
one of the copied and symlinked sets. -/
def copiedSymlinkedDisjoint (st : EngineState) : Prop :=
  ∀ d, d ∈ st.copied → d ∉ st.symlinked

/-- The run-set effect of one `copy_file` call: either both sets are left
unchanged, or exactly one of them gains the destination path, which was in
neither set beforehand (the first two branches of `file_status` guard
every write). -/
theorem copy_file_sets (ctx : Ctx) (st : EngineState) (src : SourceFile) :
    ((copy_file ctx st src).1.copied = st.copied ∧
      (copy_file ctx st src).1.symlinked = st.symlinked) ∨
    (destPath src ∉ st.copied ∧ destPath src ∉ st.symlinked ∧
      (copy_file ctx st src).1.copied = insertPath st.copied (destPath src) ∧
      (copy_file ctx st src).1.symlinked = st.symlinked) ∨
    (destPath src ∉ st.copied ∧ destPath src ∉ st.symlinked ∧
      (copy_file ctx st src).1.copied = st.copied ∧
      (copy_file ctx st src).1.symlinked =
        insertPath st.symlinked (destPath src)) := by
  by_cases hp : src.hasPath = true
  · cases hfs : file_status ctx.caps ctx.symlinkMode st src (destPath src) with
    | error e =>
      left
      simp [copy_file, hp, hfs]
    | ok sd =>
      obtain ⟨stat, detail⟩ := sd
      cases stat with
      | skip =>
        left
        by_cases hnm : detail = some Reason.notModified
        · simp [copy_file, hp, hfs, hnm]
        · simp [copy_file, hp, hfs, hnm]
      | copy =>
        obtain ⟨hnc, hns⟩ := file_status_copy_not_claimed ctx.caps
          ctx.symlinkMode st src (destPath src) detail hfs
        cases hm : ctx.symlinkMode with
        | true =>
          simp only [hm] at hfs
          cases hl : destinationLocal ctx.caps with
          | true =>
            right; right
            refine ⟨hnc, hns, ?_, ?_⟩ <;>
              cases hd : ctx.dryRun <;> simp [copy_file, hp, hfs, hm, hl, hd]
          | false =>
            left
            cases hd : ctx.dryRun <;>
              simp [copy_file, hp, hfs, hm, hl, hd]
        | false =>
          simp only [hm] at hfs
          right; left
          refine ⟨hnc, hns, ?_, ?_⟩ <;>
            cases hd : ctx.dryRun <;>
              cases hl : destinationLocal ctx.caps <;>
                simp [copy_file, hp, hfs, hm, hl, hd]
  · left
    simp [copy_file, hp]

/-- One `copy_file` call preserves the copied/symlinked disjointness. -/
theorem copy_file_preserves_disjoint (ctx : Ctx) (st : EngineState)
    (src : SourceFile) (hinv : copiedSymlinkedDisjoint st) :
    copiedSymlinkedDisjoint (copy_file ctx st src).1 := by
  rcases copy_file_sets ctx st src with
    ⟨hc, hs⟩ | ⟨hnc, hns, hc, hs⟩ | ⟨hnc, hns, hc, hs⟩
  · intro d hd
    rw [hc] at hd
    rw [hs]
    exact hinv d hd
  · intro d hd hd2
    rw [hc] at hd
    rw [hs] at hd2
    rcases mem_insertPath.mp hd with rfl | hd3
    · exact hns hd2
    · exact hinv d hd3 hd2
  · intro d hd hd2
    rw [hc] at hd
    rw [hs] at hd2
    rcases mem_insertPath.mp hd2 with rfl | hd3
    · exact hnc hd
    · exact hinv d hd hd3

/-- The whole finder loop preserves the copied/symlinked disjointness. -/
theorem processFiles_preserves_disjoint (ctx : Ctx)
    (files : List SourceFile) :
    ∀ st : EngineState, copiedSymlinkedDisjoint st →
      copiedSymlinkedDisjoint (processFiles ctx st files).1 := by
  induction files with
  | nil => intro st h; exact h
  | cons f fs ih =>
    intro st h
    have hstep := copy_file_preserves_disjoint ctx st f h
    cases he : (copy_file ctx st f).2.1 with
    | some e =>
      simp only [processFiles, he]
      exact hstep
    | none =>
      simp only [processFiles, he]
      exact ih _ hstep

/-- C4 (amended): throughout one run — i.e. after processing any prefix of
the discovered files — every DestinationPath appears in at most one of the
copied and symlinked sets; and a path is only skipped with reason
NotModified (the only way into the unmodified set) while it is in neither
the copied nor the symlinked set at that moment. (The original claim's
further assertion, that a path in the unmodified set is never concurrently
in copied/symlinked for the same run, is refuted by
`c4_unmodified_and_copied_overlap`: a later finder's file for the same
path can still be written afterwards.) -/
theorem c4_amended_invariants (ctx : Ctx) (dest0 : DestState)
    (pre : List SourceFile) (d : String) :
    (d ∈ (processFiles ctx (initState dest0) pre).1.copied →
      d ∉ (processFiles ctx (initState dest0) pre).1.symlinked) ∧
    ∀ (st : EngineState) (src : SourceFile) (d2 : String),
      file_status ctx.caps ctx.symlinkMode st src d2 =
        Except.ok (Status.skip, some Reason.notModified) →
      d2 ∉ st.copied ∧ d2 ∉ st.symlinked := by
  constructor
  · intro hd
    have h0 : copiedSymlinkedDisjoint (initState dest0) := by
      intro x hx
      exact absurd hx (List.not_mem_nil x)
    exact processFiles_preserves_disjoint ctx pre (initState dest0) h0 d hd
  · intro st src d2 h
    exact file_status_notModified_not_claimed ctx.caps ctx.symlinkMode
      st src d2 h

/-- Witness for the amended C4 at a concrete run: one copied file is in
the copied set and, by the theorem, not in the symlinked set. -/
theorem c4_amended_invariants_witness :
    "w.js" ∉ (processFiles ⟨⟨true, true⟩, false, false, 0⟩
      (initState []) [⟨"w.js", "", some 1, true⟩]).1.symlinked :=
  (c4_amended_invariants ⟨⟨true, true⟩, false, false, 0⟩ []
    [⟨"w.js", "", some 1, true⟩] "w.js").1 (by decide)

/-- C6 (amended): when the earlier finder's file has actually claimed the
DestinationPath — the path is in the copied set (Copy mode) or in the
symlinked set (Symlink mode) — every later discovered file resolving to
the same path is skipped with reason AlreadyCopied respectively
AlreadyLinked, and its `copy_file` call returns the engine state (in
particular the destination storage) completely unchanged, with Python
return value False. (The original claim's unconditional form is refuted by
`c6_later_finder_can_write`: when the earlier finder's file was itself
skipped as unmodified, nothing is claimed and the later finder's file can
be written.) -/
theorem c6_amended_priority_override (ctx : Ctx) (st : EngineState)
    (src : SourceFile) (h : src.hasPath = true) :
    (destPath src ∈ st.copied →
      file_status ctx.caps ctx.symlinkMode st src (destPath src) =
        Except.ok (Status.skip, some Reason.alreadyCopied) ∧
      copy_file ctx st src = (st, none, false)) ∧
    (destPath src ∉ st.copied → destPath src ∈ st.symlinked →
      file_status ctx.caps ctx.symlinkMode st src (destPath src) =
        Except.ok (Status.skip, some Reason.alreadyLinked) ∧
      copy_file ctx st src = (st, none, false)) := by
  constructor
  · intro hmem
    have hfs : file_status ctx.caps ctx.symlinkMode st src (destPath src) =
        Except.ok (Status.skip, some Reason.alreadyCopied) := by
      rw [file_status, if_pos hmem]
    refine ⟨hfs, ?_⟩
    simp [copy_file, h, hfs]
  · intro hnc hmem
    have hfs : file_status ctx.caps ctx.symlinkMode st src (destPath src) =
        Except.ok (Status.skip, some Reason.alreadyLinked) := by
      rw [file_status, if_neg hnc, if_pos hmem]
    refine ⟨hfs, ?_⟩
    simp [copy_file, h, hfs]

/-- C6 witness scenario: a state in which `w.txt` is already claimed by an
earlier finder's copy. -/
def c6wst : EngineState := ⟨[("w.txt", ⟨1, false⟩)], ["w.txt"], [], []⟩

/-- C6 witness scenario: a later finder's file for the same path. -/
def c6wsrc : SourceFile := ⟨"w.txt", "", some 9, true⟩

/-- C6 witness scenario: Copy mode context. -/
def c6wctx : Ctx := ⟨⟨true, true⟩, false, false, 0⟩

/-- Witness for the amended C6: the later finder's file is skipped with
reason AlreadyCopied and mutates nothing. -/
theorem c6_amended_priority_override_witness :
    file_status c6wctx.caps c6wctx.symlinkMode c6wst c6wsrc
      (destPath c6wsrc) =
      Except.ok (Status.skip, some Reason.alreadyCopied) ∧
    copy_file c6wctx c6wst c6wsrc = (c6wst, none, false) :=
  (c6_amended_priority_override c6wctx c6wst c6wsrc (by decide)).1 (by decide)

/-- C9: with interactive confirmation enabled and any operator input other
than the literal "yes", the run aborts with the user-facing cancellation
error and the returned state is exactly the initial one: the destination
snapshot is unchanged and the copied/symlinked/unmodified sets are empty —
zero files deleted, copied or symlinked. (The hypotheses on `link` only
rule out the two symlink preconditions that the code checks even earlier,
which also abort without mutating anything.) -/
theorem c9_cancellation_no_mutation (caps : DestCaps) (win32 : Bool)
    (now : Nat) (opts : Opts) (files : List SourceFile) (dest0 : DestState)
    (hint : opts.interactive = true) (hconf : opts.confirm ≠ "yes")
    (hplat : opts.link = true → win32 = false)
    (hlocal : opts.link = true → destinationLocal caps = true) :
    runEngine caps win32 now opts files dest0 =
      ⟨initState dest0, some Err.userCancelled⟩ := by
  have h1 : ¬ (opts.link = true ∧ win32 = true) := by
    rintro ⟨hl, hw⟩
    rw [hplat hl] at hw
    exact Bool.noConfusion hw
  have h2 : ¬ (opts.link = true ∧ destinationLocal caps = false) := by
    rintro ⟨hl, hd⟩
    rw [hlocal hl] at hd
    exact Bool.noConfusion hd
  rw [runEngine, if_neg h1, if_neg h2, if_pos ⟨hint, hconf⟩]

/-- Witness for C9: a concrete non-empty run cancelled by the answer
"no" leaves the pre-existing destination entry untouched. -/
theorem c9_cancellation_no_mutation_witness :
    runEngine ⟨true, true⟩ false 0 ⟨false, false, true, "no"⟩
      [⟨"k.txt", "", some 2, true⟩] [("old.txt", ⟨1, false⟩)] =
      ⟨initState [("old.txt", ⟨1, false⟩)], some Err.userCancelled⟩ :=
  c9_cancellation_no_mutation ⟨true, true⟩ false 0 ⟨false, false, true, "no"⟩
    [⟨"k.txt", "", some 2, true⟩] [("old.txt", ⟨1, false⟩)]
    rfl (by decide) (fun h => Bool.noConfusion h) (fun h => Bool.noConfusion h)

/-- C10: `copy_file` models line 111 (`source_path =
source_storage.path(source)`) before anything else, so for a source
storage without local-path capability the call fails with `notSupported`
for every context — any mode (Copy or Symlink), any destination
capabilities (local or not) and also under dry-run — and the surrounding
run aborts, rather than falling back to streaming. -/
theorem c10_source_path_resolved_unconditionally (ctx : Ctx)
    (st : EngineState) (src : SourceFile) (fs : List SourceFile)
    (h : src.hasPath = false) :
    copy_file ctx st src = (st, some Err.notSupported, false) ∧
    (processFiles ctx st (src :: fs)).2 = some Err.notSupported := by
  have h1 : copy_file ctx st src = (st, some Err.notSupported, false) := by
    simp [copy_file, h]
  refine ⟨h1, ?_⟩
  simp only [processFiles, h1]

/-- Witness for C10: Copy mode, non-local destination, dry-run — the
run still fails on the path-less source storage. -/
theorem c10_source_path_resolved_unconditionally_witness :
    copy_file ⟨⟨true, false⟩, false, true, 3⟩ (initState [])
      ⟨"q.css", "", some 1, false⟩ =
      (initState [], some Err.notSupported, false) ∧
    (processFiles ⟨⟨true, false⟩, false, true, 3⟩ (initState [])
      [⟨"q.css", "", some 1, false⟩]).2 = some Err.notSupported :=
  c10_source_path_resolved_unconditionally ⟨⟨true, false⟩, false, true, 3⟩
    (initState []) ⟨"q.css", "", some 1, false⟩ [] (by decide)

/-! ### Dry-run purity -/

/-- Simulation relation between the state of a dry run (`stD`) and the
state of a real run (`stR`) started from the same destination snapshot
`dest0`: the three run sets coincide, the dry run has not touched the
destination, and the real run has only touched destination paths it has
claimed in `copied`/`symlinked`. -/
def DryRel (dest0 : DestState) (stD stR : EngineState) : Prop :=
  stD.copied = stR.copied ∧ stD.symlinked = stR.symlinked ∧
  stD.unmodified = stR.unmodified ∧ stD.dest = dest0 ∧
  ∀ x, x ∉ stR.copied → x ∉ stR.symlinked →
    lookupEntry stR.dest x = lookupEntry dest0 x

/-- Under the simulation relation, `file_status` answers identically in
the dry and the real run: for an unclaimed path both runs still see the
original destination entry, and for a claimed path the first two branches
answer without consulting the destination at all. -/
theorem file_status_dryrel (caps : DestCaps) (sm : Bool) (dest0 : DestState)
    (stD stR : EngineState) (src : SourceFile) (d : String)
    (h : DryRel dest0 stD stR) :
    file_status caps sm stD src d = file_status caps sm stR src d := by
  obtain ⟨hc, hs, hu, hdst, hag⟩ := h
  by_cases h1 : d ∈ stR.copied
  · have h1D : d ∈ stD.copied := by rw [hc]; exact h1
    rw [file_status, if_pos h1D, file_status, if_pos h1]
  · have h1D : d ∉ stD.copied := by rw [hc]; exact h1
    by_cases h2 : d ∈ stR.symlinked
    · have h2D : d ∈ stD.symlinked := by rw [hs]; exact h2
      rw [file_status, if_neg h1D, if_pos h2D, file_status, if_neg h1,
        if_pos h2]
    · have h2D : d ∉ stD.symlinked := by rw [hs]; exact h2
      have hl : lookupEntry stD.dest d = lookupEntry stR.dest d := by
        rw [hdst, hag d h1 h2]
      exact file_status_congr caps sm stD stR src d hc hs hl

/-- One `copy_file` step preserves the dry/real simulation: both runs
fail alike, and on success the relation carries over — the dry run only
does the bookkeeping while the real run additionally rewrites exactly the
destination path it claims. -/
theorem copy_file_dryrel (caps : DestCaps) (sm : Bool) (now : Nat)
    (dest0 : DestState) (stD stR : EngineState) (src : SourceFile)
    (h : DryRel dest0 stD stR) :
    (copy_file ⟨caps, sm, true, now⟩ stD src).2.1 =
      (copy_file ⟨caps, sm, false, now⟩ stR src).2.1 ∧
    ((copy_file ⟨caps, sm, true, now⟩ stD src).2.1 = none →
      DryRel dest0 (copy_file ⟨caps, sm, true, now⟩ stD src).1
        (copy_file ⟨caps, sm, false, now⟩ stR src).1) := by
  obtain ⟨hc, hs, hu, hdst, hag⟩ := h
  by_cases hp : src.hasPath = true
  case neg =>
    simp [copy_file, hp]
  case pos =>
    have hfs := file_status_dryrel caps sm dest0 stD stR src (destPath src)
      ⟨hc, hs, hu, hdst, hag⟩
    cases hr : file_status caps sm stR src (destPath src) with
    | error e =>
      have hD : file_status caps sm stD src (destPath src) =
          Except.error e := by rw [hfs, hr]
      constructor
      · simp [copy_file, hp, hD, hr]
      · intro hnone
        simp [copy_file, hp, hD] at hnone
    | ok sd =>
      obtain ⟨stat, detail⟩ := sd
      have hD : file_status caps sm stD src (destPath src) =
          Except.ok (stat, detail) := by rw [hfs, hr]
      cases stat with
      | skip =>
        by_cases hnm : detail = some Reason.notModified
        · subst hnm
          have eD : copy_file ⟨caps, sm, true, now⟩ stD src =
              ({ stD with unmodified :=
                  insertPath stD.unmodified (destPath src) }, none, false) := by
            simp [copy_file, hp, hD]
          have eR : copy_file ⟨caps, sm, false, now⟩ stR src =
              ({ stR with unmodified :=
                  insertPath stR.unmodified (destPath src) }, none, false) := by
            simp [copy_file, hp, hr]
          rw [eD, eR]
          refine ⟨rfl, fun _ => ⟨hc, hs, ?_, hdst, hag⟩⟩
          show insertPath stD.unmodified _ = insertPath stR.unmodified _
          rw [hu]
        · have eD : copy_file ⟨caps, sm, true, now⟩ stD src =
              (stD, none, false) := by
            simp [copy_file, hp, hD, hnm]
          have eR : copy_file ⟨caps, sm, false, now⟩ stR src =
              (stR, none, false) := by
            simp [copy_file, hp, hr, hnm]
          rw [eD, eR]
          exact ⟨rfl, fun _ => ⟨hc, hs, hu, hdst, hag⟩⟩
      | copy =>
        obtain ⟨hnc, hns⟩ := file_status_copy_not_claimed caps sm stR src
          (destPath src) detail hr
        cases sm with
        | true =>
          cases hloc : destinationLocal caps with
          | false =>
            constructor
            · simp [copy_file, hp, hD, hr, hloc]
            · intro hnone
              simp [copy_file, hp, hD, hloc] at hnone
          | true =>
            have eD : copy_file ⟨caps, true, true, now⟩ stD src =
                ({ stD with symlinked :=
                    insertPath stD.symlinked (destPath src) }, none, true) := by
              simp [copy_file, hp, hD, hloc]
            have eR : copy_file ⟨caps, true, false, now⟩ stR src =
                ({ stR with
                    dest := writeEntry (eraseEntry stR.dest (destPath src))
                      (destPath src) ⟨sourceTs src, true⟩,
                    symlinked :=
                      insertPath stR.symlinked (destPath src) }, none, true) := by
              simp [copy_file, hp, hr, hloc]
            rw [eD, eR]
            refine ⟨rfl, fun _ => ⟨hc, ?_, hu, hdst, ?_⟩⟩
            · show insertPath stD.symlinked _ = insertPath stR.symlinked _
              rw [hs]
            · intro x hx1 hx2
              have hxd : x ≠ destPath src := fun he =>
                hx2 (he ▸ self_mem_insertPath stR.symlinked (destPath src))
              have hx2R : x ∉ stR.symlinked := fun hxx =>
                hx2 (mem_insertPath_of_mem hxx)
              show lookupEntry
                (writeEntry (eraseEntry stR.dest (destPath src))
                  (destPath src) ⟨sourceTs src, true⟩) x = lookupEntry dest0 x
              rw [lookupEntry_overwrite_ne _ _ _ _ hxd]
              exact hag x hx1 hx2R
        | false =>
          have eD : copy_file ⟨caps, false, true, now⟩ stD src =
              ({ stD with copied :=
                  insertPath stD.copied (destPath src) }, none, true) := by
            simp [copy_file, hp, hD]
          cases hloc : destinationLocal caps with
          | true =>
            have eR : copy_file ⟨caps, false, false, now⟩ stR src =
                ({ stR with
                    dest := writeEntry (eraseEntry stR.dest (destPath src))
                      (destPath src) ⟨sourceTs src, false⟩,
                    copied :=
                      insertPath stR.copied (destPath src) }, none, true) := by
              simp [copy_file, hp, hr, hloc]
            rw [eD, eR]
            refine ⟨rfl, fun _ => ⟨?_, hs, hu, hdst, ?_⟩⟩
            · show insertPath stD.copied _ = insertPath stR.copied _
              rw [hc]
            · intro x hx1 hx2
              have hxd : x ≠ destPath src := fun he =>
                hx1 (he ▸ self_mem_insertPath stR.copied (destPath src))
              have hx1R : x ∉ stR.copied := fun hxx =>
                hx1 (mem_insertPath_of_mem hxx)
              show lookupEntry
                (writeEntry (eraseEntry stR.dest (destPath src))
                  (destPath src) ⟨sourceTs src, false⟩) x = lookupEntry dest0 x
              rw [lookupEntry_overwrite_ne _ _ _ _ hxd]
              exact hag x hx1R hx2
          | false =>
            have eR : copy_file ⟨caps, false, false, now⟩ stR src =
                ({ stR with
                    dest := writeEntry (eraseEntry stR.dest (destPath src))
                      (destPath src) ⟨now, false⟩,
                    copied :=
                      insertPath stR.copied (destPath src) }, none, true) := by
              simp [copy_file, hp, hr, hloc]
            rw [eD, eR]
            refine ⟨rfl, fun _ => ⟨?_, hs, hu, hdst, ?_⟩⟩
            · show insertPath stD.copied _ = insertPath stR.copied _
              rw [hc]
            · intro x hx1 hx2
              have hxd : x ≠ destPath src := fun he =>
                hx1 (he ▸ self_mem_insertPath stR.copied (destPath src))
              have hx1R : x ∉ stR.copied := fun hxx =>
                hx1 (mem_insertPath_of_mem hxx)
              show lookupEntry
                (writeEntry (eraseEntry stR.dest (destPath src))
                  (destPath src) ⟨now, false⟩) x = lookupEntry dest0 x
              rw [lookupEntry_overwrite_ne _ _ _ _ hxd]
              exact hag x hx1R hx2

/-- The whole finder loop preserves the dry/real simulation: the two runs
fail alike, and when the dry run completes, the final states are related. -/
theorem processFiles_dryrel (caps : DestCaps) (sm : Bool) (now : Nat)
    (dest0 : DestState) (files : List SourceFile) :
    ∀ stD stR : EngineState, DryRel dest0 stD stR →
      (processFiles ⟨caps, sm, true, now⟩ stD files).2 =
        (processFiles ⟨caps, sm, false, now⟩ stR files).2 ∧
      ((processFiles ⟨caps, sm, true, now⟩ stD files).2 = none →
        DryRel dest0 (processFiles ⟨caps, sm, true, now⟩ stD files).1
          (processFiles ⟨caps, sm, false, now⟩ stR files).1) := by
  induction files with
  | nil =>
    intro stD stR h
    exact ⟨rfl, fun _ => h⟩
  | cons f fs ih =>
    intro stD stR h
    obtain ⟨herr, hrel⟩ := copy_file_dryrel caps sm now dest0 stD stR f h
    cases he : (copy_file ⟨caps, sm, true, now⟩ stD f).2.1 with
    | some e =>
      have heR : (copy_file ⟨caps, sm, false, now⟩ stR f).2.1 = some e := by
        rw [← herr, he]
      constructor
      · simp only [processFiles, he, heR]
      · intro hnone
        simp only [processFiles, he] at hnone
        exact Option.noConfusion hnone
    | none =>
      have heR : (copy_file ⟨caps, sm, false, now⟩ stR f).2.1 = none := by
        rw [← herr, he]
      have hnext := ih (copy_file ⟨caps, sm, true, now⟩ stD f).1
        (copy_file ⟨caps, sm, false, now⟩ stR f).1 (hrel he)
      constructor
      · simp only [processFiles, he, heR]
        exact hnext.1
      · intro hnone
        simp only [processFiles, he] at hnone
        simp only [processFiles, he, heR]
        exact hnext.2 hnone

/-- C7: for the same discovered files and the same initial destination
state, if the dry run and the real run both complete, then the dry run
leaves the destination snapshot exactly as it was (no delete, copy or
symlink is performed), while recording the very same copied, symlinked
and unmodified sets as the real run — hence the summary counts of the two
runs are identical. -/
theorem c7_dry_run_purity (caps : DestCaps) (win32 : Bool) (now : Nat)
    (lnk intv : Bool) (confirm : String) (files : List SourceFile)
    (dest0 : DestState)
    (hdry : (runEngine caps win32 now ⟨lnk, true, intv, confirm⟩
      files dest0).err = none)
    (hreal : (runEngine caps win32 now ⟨lnk, false, intv, confirm⟩
      files dest0).err = none) :
    (runEngine caps win32 now ⟨lnk, true, intv, confirm⟩
        files dest0).state.dest = dest0 ∧
    (runEngine caps win32 now ⟨lnk, true, intv, confirm⟩
        files dest0).state.copied =
      (runEngine caps win32 now ⟨lnk, false, intv, confirm⟩
        files dest0).state.copied ∧
    (runEngine caps win32 now ⟨lnk, true, intv, confirm⟩
        files dest0).state.symlinked =
      (runEngine caps win32 now ⟨lnk, false, intv, confirm⟩
        files dest0).state.symlinked ∧
    (runEngine caps win32 now ⟨lnk, true, intv, confirm⟩
        files dest0).state.unmodified =
      (runEngine caps win32 now ⟨lnk, false, intv, confirm⟩
        files dest0).state.unmodified ∧
    actualCount (runEngine caps win32 now ⟨lnk, true, intv, confirm⟩
        files dest0).state =
      actualCount (runEngine caps win32 now ⟨lnk, false, intv, confirm⟩
        files dest0).state ∧
    unmodifiedCount (runEngine caps win32 now ⟨lnk, true, intv, confirm⟩
        files dest0).state =
      unmodifiedCount (runEngine caps win32 now ⟨lnk, false, intv, confirm⟩
        files dest0).state := by
  by_cases g1 : lnk = true ∧ win32 = true
  · exfalso
    simp [runEngine, g1] at hdry
  by_cases g2 : lnk = true ∧ destinationLocal caps = false
  · exfalso
    simp only [runEngine, if_neg g1, if_pos g2] at hdry
    exact Option.noConfusion hdry
  by_cases g3 : intv = true ∧ ¬ confirm = "yes"
  · exfalso
    simp only [runEngine, if_neg g1, if_neg g2, if_pos g3] at hdry
    exact Option.noConfusion hdry
  simp only [runEngine, if_neg g1, if_neg g2, if_neg g3] at hdry hreal ⊢
  obtain ⟨herr, hrel⟩ := processFiles_dryrel caps lnk now dest0 files
    (initState dest0) (initState dest0)
    ⟨rfl, rfl, rfl, rfl, fun x h1 h2 => rfl⟩
  obtain ⟨e1, e2, e3, e4, e5⟩ := hrel hdry
  refine ⟨e4, e1, e2, e3, ?_, ?_⟩
  · rw [actualCount, actualCount, e1, e2]
  · rw [unmodifiedCount, unmodifiedCount, e3]

/-- C7 witness scenario: two discovered files colliding on one path plus a
pre-existing destination entry. -/
def c7wfiles : List SourceFile :=
  [⟨"v1.txt", "", some 3, true⟩, ⟨"v1.txt", "", some 8, true⟩,
    ⟨"v2.txt", "", some 5, true⟩]

/-- C7 witness scenario: the pre-existing destination snapshot. -/
def c7wdest : DestState := [("v2.txt", ⟨4, false⟩)]

/-- Witness for C7: on the concrete scenario, the dry run leaves the
destination untouched and agrees with the real run on all three sets and
on both summary counts. -/
theorem c7_dry_run_purity_witness :
    (runEngine ⟨true, true⟩ false 7 ⟨false, true, false, ""⟩
        c7wfiles c7wdest).state.dest = c7wdest ∧
    (runEngine ⟨true, true⟩ false 7 ⟨false, true, false, ""⟩
        c7wfiles c7wdest).state.copied =
      (runEngine ⟨true, true⟩ false 7 ⟨false, false, false, ""⟩
        c7wfiles c7wdest).state.copied ∧
    (runEngine ⟨true, true⟩ false 7 ⟨false, true, false, ""⟩
        c7wfiles c7wdest).state.symlinked =
      (runEngine ⟨true, true⟩ false 7 ⟨false, false, false, ""⟩
        c7wfiles c7wdest).state.symlinked ∧
    (runEngine ⟨true, true⟩ false 7 ⟨false, true, false, ""⟩
        c7wfiles c7wdest).state.unmodified =
      (runEngine ⟨true, true⟩ false 7 ⟨false, false, false, ""⟩
        c7wfiles c7wdest).state.unmodified ∧
    actualCount (runEngine ⟨true, true⟩ false 7 ⟨false, true, false, ""⟩
        c7wfiles c7wdest).state =
      actualCount (runEngine ⟨true, true⟩ false 7 ⟨false, false, false, ""⟩
        c7wfiles c7wdest).state ∧
    unmodifiedCount (runEngine ⟨true, true⟩ false 7
        ⟨false, true, false, ""⟩ c7wfiles c7wdest).state =
      unmodifiedCount (runEngine ⟨true, true⟩ false 7
        ⟨false, false, false, ""⟩ c7wfiles c7wdest).state :=
  c7_dry_run_purity ⟨true, true⟩ false 7 false false "" c7wfiles c7wdest
    (by decide) (by decide)
